import Mathlib

/-!
Verification of the SchemaEvolver specification of `pos-desktop` against its
source. The only substantive source file is `src/migrate_settings.py`, a
one-off SQLite migration script; the spec generalises it into a reusable
`evolve(connection, table_name, target_schema) -> EvolutionReport` routine.
We shallowly embed the SQLite database state the script manipulates, the
script itself, and the generalised `evolve` routine, and prove the spec's
testable properties.
-/

/-- SQLite column type names, as enumerated by the spec's data model
(`ColumnSpec.declared_type`). The source script only uses `TEXT`. -/
inductive SQLType where
  | TEXT
  | INTEGER
  | REAL
  | BLOB
  | NUMERIC
deriving DecidableEq, Repr

/-- Modelled from the spec: `ColumnSpec` (§3), a declared target column —
name, declared type, optional default literal. Not present in `src/`; the
script hardcodes two TEXT columns with no default. -/
structure ColumnSpec where
  name : String
  declared_type : SQLType
  default : Option String
deriving DecidableEq, Repr

/-- A column of a live table: its name and declared type, as reported by
`PRAGMA table_info` (the script reads `col[1]`, the name, at line 15). -/
structure Column where
  name : String
  declared_type : SQLType
deriving DecidableEq, Repr

/-- The `Column` a `ColumnSpec` creates when added. -/
def ColumnSpec.toColumn (c : ColumnSpec) : Column :=
  ⟨c.name, c.declared_type⟩

/-- A live table: name, ordered columns, and stored rows. A row holds one
optional value per column (`none` models SQL NULL). -/
structure Table where
  name : String
  cols : List Column
  rows : List (List (Option String))
deriving DecidableEq, Repr

/-- The database catalog: the tables of one SQLite file. -/
abbrev DB := List Table

/-- Catalog lookup of a table by name. -/
def lookupTable (db : DB) (tname : String) : Option Table :=
  db.find? (fun t => t.name == tname)

/-- Effect of `ALTER TABLE .. ADD COLUMN <name> <type>` on one table: the
new column is appended to the column list and every existing row gains the
spec's default value (NULL when none is declared) in the new position. -/
def Table.addColumn (t : Table) (c : ColumnSpec) : Table :=
  { t with
    cols := t.cols ++ [c.toColumn]
    rows := t.rows.map (fun r => r ++ [c.default]) }

/-- Effect of `ALTER TABLE <tname> ADD COLUMN` on the whole catalog: only
the named table changes. -/
def DB.addColumn (db : DB) (tname : String) (c : ColumnSpec) : DB :=
  db.map (fun t => if t.name == tname then t.addColumn c else t)

/-- Modelled from the spec: the error taxonomy of §4.1/§7 (`TableNotFound`,
`ColumnAdditionFailed(column_name, underlying_cause)` carrying the partial
`added` list, `ConnectionError`). Not present in `src/`; the script folds
every failure into one catch-all `except`. -/
inductive EvolveError where
  | TableNotFound (table : String)
  | ColumnAdditionFailed (column : String) (cause : String) (added : List String)
  | ConnectionError
deriving DecidableEq, Repr

/-- Modelled from the spec: `EvolutionReport { added, skipped }` (§4.1). -/
structure EvolutionReport where
  added : List String
  skipped : List String
deriving DecidableEq, Repr

/-- Modelled from the spec: the caller-owned connection handle (§4.1) — the
database state it reaches plus whether the handle is open. -/
structure Conn where
  db : DB
  isOpen : Bool
deriving DecidableEq, Repr

/-- Modelled from the spec: the `MigrationPlan` set-difference
`TargetSchema.names − ExistingSchema.names` (§3) — the target columns whose
names are absent from the introspected column set, in declared order.
Mirrors the script's `if 'x' not in columns` checks (lines 17, 23). -/
def missingFrom (existing : List String) (target : List ColumnSpec) : List ColumnSpec :=
  target.filter (fun c => !(decide (c.name ∈ existing)))

/-- The target columns already present in the introspected column set, in
declared order (the `skipped` part of the report). -/
def presentIn (existing : List String) (target : List ColumnSpec) : List ColumnSpec :=
  target.filter (fun c => decide (c.name ∈ existing))

/-- Modelled from the spec: the per-column loop of `evolve` (§4.1 step 2),
generalising the script's two `if .. not in columns` blocks (lines 17-27).
`existing` is the column-name snapshot taken once before the loop (the
script reads `PRAGMA table_info` once, line 14). `reject` models the
database's verdict on each `ADD COLUMN` statement: `some cause` means the
statement is rejected with that underlying cause (disk full, locked
database, ...). Each successful addition is applied to the catalog at once
(its own transaction, §4.1 step 4), so on failure the catalog keeps all
columns added so far and the error carries the partial `added` list. -/
def evolveGo (reject : String → Option String) (tname : String) (existing : List String) :
    List ColumnSpec → DB → List String → List String →
      DB × Except EvolveError EvolutionReport
  | [], db, added, skipped => (db, .ok ⟨added, skipped⟩)
  | c :: rest, db, added, skipped =>
    if c.name ∈ existing then
      evolveGo reject tname existing rest db added (skipped ++ [c.name])
    else
      match reject c.name with
      | some cause => (db, .error (.ColumnAdditionFailed c.name cause added))
      | none => evolveGo reject tname existing rest (db.addColumn tname c) (added ++ [c.name]) skipped

/-- Modelled from the spec: `evolve(connection, table_name, target_schema)`
(§4.1). Not present as a reusable routine in `src/`; generalised from
`src/migrate_settings.py` exactly as §1/§9 prescribe. Fails with
`ConnectionError` before introspection when the handle is closed, with
`TableNotFound` when the table is missing from the catalog (no change
attempted), and otherwise snapshots the column names once and walks the
target schema in declared order, adding each absent column. The connection
is never opened or closed here: `isOpen` is passed through unchanged. -/
def evolve (reject : String → Option String) (conn : Conn) (tname : String)
    (target : List ColumnSpec) : Conn × Except EvolveError EvolutionReport :=
  if conn.isOpen = false then (conn, .error .ConnectionError)
  else
    match lookupTable conn.db tname with
    | none => (conn, .error (.TableNotFound tname))
    | some t =>
      let res := evolveGo reject tname (t.cols.map (·.name)) target conn.db [] []
      ({ conn with db := res.1 }, res.2)

/-! ## Shallow embedding of `src/migrate_settings.py` itself -/

/-- The hardcoded database path of `src/migrate_settings.py` line 4. -/
def db_path : String := "C:\\poswaza\\temp\\db\\pos_local.db"

/-- `PRAGMA table_info(tname)` (script line 14): the table's columns, or no
rows at all when the table does not exist (SQLite raises no error here). -/
def pragma_table_info (db : DB) (tname : String) : List Column :=
  match lookupTable db tname with
  | some t => t.cols
  | none => []

/-- `cursor.execute("ALTER TABLE <tname> ADD COLUMN ...")`: raises
`no such table` when the table is missing, raises the injected cause when
the database rejects the statement, and otherwise mutates the catalog. -/
def execAlterAdd (reject : String → Option String) (db : DB) (tname : String)
    (c : ColumnSpec) : Except String DB :=
  match lookupTable db tname with
  | none => .error ("no such table: " ++ tname)
  | some _ =>
    match reject c.name with
    | some cause => .error cause
    | none => .ok (db.addColumn tname c)

/-- Observable outcome of one run of the script: the database catalog it
leaves behind, the lines it printed in order, and whether
`sqlite3.connect` was ever called. -/
structure ScriptOutcome where
  db : DB
  output : List String
  connected : Bool
deriving DecidableEq, Repr

/-- Second half of the script body (lines 23-31): the `site_livraison`
check, then `conn.commit(); conn.close()` (no-ops on the modelled catalog:
every applied `ALTER` is already in `db`) and the success print. On an
exception the `except` block prints `Migration failed: ...` and the catalog
keeps only the changes applied before the failure. -/
def migrateStep2 (reject : String → Option String) (columns : List String) (db : DB)
    (out : List String) : ScriptOutcome :=
  if "site_livraison" ∈ columns then
    ⟨db, out ++ ["Column site_livraison already exists.", "Migration completed successfully."], true⟩
  else
    match execAlterAdd reject db "pop_config" ⟨"site_livraison", .TEXT, none⟩ with
    | .error e => ⟨db, out ++ ["Adding column site_livraison...", "Migration failed: " ++ e], true⟩
    | .ok db2 => ⟨db2, out ++ ["Adding column site_livraison...", "Migration completed successfully."], true⟩

/-- Shallow embedding of `src/migrate_settings.py`. `dbExists` models
`os.path.exists(db_path)`; when false the script prints the not-found
message and never connects. Otherwise it connects, snapshots the column
names of `pop_config` once, and runs the two conditional `ADD COLUMN`
blocks in order; any exception is caught and printed (line 32-33). -/
def migrate_settings (reject : String → Option String) (dbExists : Bool) (db : DB) :
    ScriptOutcome :=
  if dbExists = false then
    ⟨db, ["Database not found at " ++ db_path], false⟩
  else
    let columns := (pragma_table_info db "pop_config").map (·.name)
    if "address_vente" ∈ columns then
      migrateStep2 reject columns db ["Column address_vente already exists."]
    else
      match execAlterAdd reject db "pop_config" ⟨"address_vente", .TEXT, none⟩ with
      | .error e => ⟨db, ["Adding column address_vente...", "Migration failed: " ++ e], true⟩
      | .ok db1 => migrateStep2 reject columns db1 ["Adding column address_vente..."]

/-! ## Concrete scenario data -/

/-- The scenario table of spec §8: `pop_config` with columns `{id, name}`
and one sample row. -/
def popConfigTable : Table :=
  ⟨"pop_config", [⟨"id", .INTEGER⟩, ⟨"name", .TEXT⟩], [[some "1", some "main"]]⟩

/-- A one-table catalog holding the scenario table. -/
def sampleDB : DB := [popConfigTable]

/-- A database that rejects no `ADD COLUMN` statement. -/
def noReject : String → Option String := fun _ => none

/-- The script's target schema: `address_vente TEXT`, `site_livraison TEXT`
in declared order (script lines 17-27). -/
def migrateTargets : List ColumnSpec :=
  [⟨"address_vente", .TEXT, none⟩, ⟨"site_livraison", .TEXT, none⟩]

/-- The catalog after the migration: both columns appended in declared
order, existing rows padded with NULL. -/
def evolvedDB : DB :=
  [⟨"pop_config",
    [⟨"id", .INTEGER⟩, ⟨"name", .TEXT⟩, ⟨"address_vente", .TEXT⟩, ⟨"site_livraison", .TEXT⟩],
    [[some "1", some "main", none, none]]⟩]

/-! ## Structural lemmas -/

/-- Adding a column does not change a table's name. -/
lemma Table.addColumn_name (t : Table) (c : ColumnSpec) : (t.addColumn c).name = t.name := rfl

/-- Catalog lookup after `ADD COLUMN` on the looked-up table. -/
lemma lookupTable_addColumn_self (db : DB) (tname : String) (c : ColumnSpec) :
    lookupTable (DB.addColumn db tname c) tname
      = (lookupTable db tname).map (fun t => t.addColumn c) := by
  induction db with
  | nil => rfl
  | cons t rest ih =>
    by_cases h : t.name == tname
    · simp [DB.addColumn, lookupTable, List.find?, h, Table.addColumn_name] at *
    · simp [DB.addColumn, lookupTable, List.find?, h, Table.addColumn_name] at *
      exact ih

/-- Catalog lookup after a sequence of `ADD COLUMN`s on the looked-up
table. -/
lemma lookupTable_foldl_addColumn (l : List ColumnSpec) (db : DB) (tname : String) :
    lookupTable (l.foldl (fun d c => DB.addColumn d tname c) db) tname
      = (lookupTable db tname).map (fun t => l.foldl Table.addColumn t) := by
  induction l generalizing db with
  | nil => simp
  | cons c rest ih =>
    simp only [List.foldl_cons]
    rw [ih, lookupTable_addColumn_self]
    cases lookupTable db tname <;> rfl

/-- Columns after a sequence of `ADD COLUMN`s: the new columns are appended
in order, the old ones untouched. -/
lemma foldl_addColumn_cols (l : List ColumnSpec) (t : Table) :
    (l.foldl Table.addColumn t).cols = t.cols ++ l.map ColumnSpec.toColumn := by
  induction l generalizing t with
  | nil => simp
  | cons c rest ih => simp [ih, Table.addColumn, List.append_assoc]

/-- Rows after a sequence of `ADD COLUMN`s: every stored row keeps its old
values as a prefix and gains the new columns' defaults. -/
lemma foldl_addColumn_rows (l : List ColumnSpec) (t : Table) :
    (l.foldl Table.addColumn t).rows
      = t.rows.map (fun r => r ++ l.map (·.default)) := by
  induction l generalizing t with
  | nil => simp
  | cons c rest ih =>
    simp [ih, Table.addColumn, List.map_map, Function.comp, List.append_assoc]

/-- When the database rejects nothing missing, the per-column loop returns
the catalog with exactly the plan's columns added, reports the plan's names
as `added`, and the already-present names as `skipped`, all in declared
order. -/
lemma evolveGo_ok (reject : String → Option String) (tname : String) (existing : List String)
    (pending : List ColumnSpec) :
    ∀ (db : DB) (added skipped : List String),
      (∀ c ∈ pending, c.name ∉ existing → reject c.name = none) →
      evolveGo reject tname existing pending db added skipped
        = ((missingFrom existing pending).foldl (fun d c => DB.addColumn d tname c) db,
           .ok ⟨added ++ (missingFrom existing pending).map (·.name),
                skipped ++ (presentIn existing pending).map (·.name)⟩) := by
  induction pending with
  | nil => intro db added skipped _; simp [evolveGo, missingFrom, presentIn]
  | cons c rest ih =>
    intro db added skipped h
    by_cases hc : c.name ∈ existing
    · rw [show evolveGo reject tname existing (c :: rest) db added skipped
            = evolveGo reject tname existing rest db added (skipped ++ [c.name]) by
          simp [evolveGo, hc]]
      rw [ih db added (skipped ++ [c.name]) (fun d hd hn => h d (List.mem_cons_of_mem _ hd) hn)]
      simp [missingFrom, presentIn, List.filter_cons, hc]
    · have hr : reject c.name = none := h c (List.mem_cons_self ..) hc
      rw [show evolveGo reject tname existing (c :: rest) db added skipped
            = evolveGo reject tname existing rest (db.addColumn tname c) (added ++ [c.name]) skipped by
          simp [evolveGo, hc, hr]]
      rw [ih _ _ _ (fun d hd hn => h d (List.mem_cons_of_mem _ hd) hn)]
      simp [missingFrom, presentIn, List.filter_cons, hc]

/-- A successful `evolve` run in closed form: when the connection is open,
the table exists, and the database rejects none of the missing columns, the
result is the catalog with exactly the migration plan applied and the
report `⟨plan names, already-present names⟩`. -/
lemma evolve_ok_eq (reject : String → Option String) (conn : Conn) (tname : String)
    (target : List ColumnSpec) (t : Table)
    (hopen : conn.isOpen = true) (hlook : lookupTable conn.db tname = some t)
    (hrej : ∀ c ∈ target, c.name ∉ t.cols.map (·.name) → reject c.name = none) :
    evolve reject conn tname target
      = (⟨(missingFrom (t.cols.map (·.name)) target).foldl
            (fun d c => DB.addColumn d tname c) conn.db,
          conn.isOpen⟩,
         .ok ⟨(missingFrom (t.cols.map (·.name)) target).map (·.name),
              (presentIn (t.cols.map (·.name)) target).map (·.name)⟩) := by
  simp [evolve, hopen, hlook,
    evolveGo_ok reject tname (t.cols.map (·.name)) target conn.db [] [] hrej]

/-- The column a spec creates keeps the spec's name. -/
lemma ColumnSpec.toColumn_name (c : ColumnSpec) : c.toColumn.name = c.name := rfl

/-- C1: idempotence of `evolve`. For any target schema (unique names, per
the TargetSchema invariant) whose columns are all absent from the table,
with a database that rejects nothing, the first call reports
`added = target_schema.names`, and a second call in succession reports
`added = []` with every column skipped and makes no schema change: the
connection state after the second call equals the state after the first. -/
theorem evolve_idempotent (reject : String → Option String) (conn : Conn) (tname : String)
    (target : List ColumnSpec) (t : Table)
    (hopen : conn.isOpen = true)
    (hlook : lookupTable conn.db tname = some t)
    (_hnodup : (target.map (·.name)).Nodup)
    (hfresh : ∀ c ∈ target, c.name ∉ t.cols.map (·.name))
    (hrej : ∀ n, reject n = none) :
    (evolve reject conn tname target).2 = .ok ⟨target.map (·.name), []⟩ ∧
    (evolve reject (evolve reject conn tname target).1 tname target).2
        = .ok ⟨[], target.map (·.name)⟩ ∧
    (evolve reject (evolve reject conn tname target).1 tname target).1
        = (evolve reject conn tname target).1 := by
  have hm1 : missingFrom (t.cols.map (·.name)) target = target := by
    apply List.filter_eq_self.mpr
    intro c hc
    simp [hfresh c hc]
  have hp1 : presentIn (t.cols.map (·.name)) target = [] := by
    apply List.filter_eq_nil_iff.mpr
    intro c hc
    simp [hfresh c hc]
  have h1 := evolve_ok_eq reject conn tname target t hopen hlook (fun c _ _ => hrej c.name)
  rw [hm1, hp1] at h1
  simp only [List.map_nil] at h1
  have hlook2 : lookupTable (target.foldl (fun d c => DB.addColumn d tname c) conn.db) tname
      = some (target.foldl Table.addColumn t) := by
    rw [lookupTable_foldl_addColumn, hlook]
    rfl
  have hex2 : (target.foldl Table.addColumn t).cols.map (·.name)
      = t.cols.map (·.name) ++ target.map (·.name) := by
    rw [foldl_addColumn_cols]
    simp [List.map_map, Function.comp, ColumnSpec.toColumn_name]
  have hm2 : missingFrom ((target.foldl Table.addColumn t).cols.map (·.name)) target = [] := by
    apply List.filter_eq_nil_iff.mpr
    intro c hc
    simp [hex2]
    exact fun _ => ⟨c, hc, rfl⟩
  have hp2 : presentIn ((target.foldl Table.addColumn t).cols.map (·.name)) target = target := by
    apply List.filter_eq_self.mpr
    intro c hc
    simp [hex2]
    exact Or.inr ⟨c, hc, rfl⟩
  have h2 := evolve_ok_eq reject
      (⟨target.foldl (fun d c => DB.addColumn d tname c) conn.db, conn.isOpen⟩ : Conn)
      tname target (target.foldl Table.addColumn t) (by simpa using hopen) hlook2
      (fun c _ _ => hrej c.name)
  rw [hm2, hp2] at h2
  simp only [List.map_nil, List.foldl_nil] at h2
  refine ⟨by rw [h1], ?_, ?_⟩ <;> rw [h1] <;> simp [h2]

/-- Witness for C1 at a concrete input: the scenario table and the
script's target schema. -/
theorem evolve_idempotent_witness :
    lookupTable sampleDB "pop_config" = some popConfigTable ∧
    (migrateTargets.map (·.name)).Nodup ∧
    (∀ c ∈ migrateTargets, c.name ∉ popConfigTable.cols.map (·.name)) ∧
    ((evolve noReject ⟨sampleDB, true⟩ "pop_config" migrateTargets).2
        = .ok ⟨migrateTargets.map (·.name), []⟩ ∧
      (evolve noReject (evolve noReject ⟨sampleDB, true⟩ "pop_config" migrateTargets).1
          "pop_config" migrateTargets).2
        = .ok ⟨[], migrateTargets.map (·.name)⟩ ∧
      (evolve noReject (evolve noReject ⟨sampleDB, true⟩ "pop_config" migrateTargets).1
          "pop_config" migrateTargets).1
        = (evolve noReject ⟨sampleDB, true⟩ "pop_config" migrateTargets).1) :=
  ⟨rfl, by decide, by decide,
    evolve_idempotent noReject ⟨sampleDB, true⟩ "pop_config" migrateTargets popConfigTable
      rfl rfl (by decide) (by decide) (fun _ => rfl)⟩

/-- Pointwise prefix relation between a list of rows and the same rows each
extended on the right. -/
lemma forall₂_prefix_map_append {α : Type} (X : List α) (l : List (List α)) :
    List.Forall₂ (fun r r' => r <+: r') l (l.map (fun r => r ++ X)) := by
  induction l with
  | nil => exact List.Forall₂.nil
  | cons r rest ih => exact List.Forall₂.cons (List.prefix_append r X) ih

/-- C5: non-destructiveness. For a target schema whose names cover every
pre-existing column, a successful `evolve` leaves a table whose column list
is exactly the old columns (names and declared types untouched, in place)
followed by the plan's new columns, and whose every stored row keeps its
old values as a prefix, extended only by the new columns' defaults: no
type-change, no rename, no drop, no data change. -/
theorem evolve_nondestructive (reject : String → Option String) (conn : Conn) (tname : String)
    (target : List ColumnSpec) (t : Table)
    (hopen : conn.isOpen = true) (hlook : lookupTable conn.db tname = some t)
    (_hsuper : ∀ c ∈ t.cols, c.name ∈ target.map (·.name))
    (hrej : ∀ n, reject n = none) :
    ∃ t', lookupTable (evolve reject conn tname target).1.db tname = some t' ∧
      t'.cols = t.cols
        ++ (missingFrom (t.cols.map (·.name)) target).map ColumnSpec.toColumn ∧
      t'.rows = t.rows.map
        (fun r => r ++ (missingFrom (t.cols.map (·.name)) target).map (·.default)) ∧
      t.cols <+: t'.cols ∧
      List.Forall₂ (fun r r' => r <+: r') t.rows t'.rows := by
  rw [evolve_ok_eq reject conn tname target t hopen hlook (fun c _ _ => hrej c.name)]
  refine ⟨(missingFrom (t.cols.map (·.name)) target).foldl Table.addColumn t, ?_, ?_, ?_, ?_, ?_⟩
  · simp [lookupTable_foldl_addColumn, hlook]
  · exact foldl_addColumn_cols ..
  · exact foldl_addColumn_rows ..
  · rw [foldl_addColumn_cols]
    exact List.prefix_append ..
  · rw [foldl_addColumn_rows]
    exact forall₂_prefix_map_append ..

/-- Witness for C5 at a concrete input: the scenario table with a target
schema covering both existing columns and adding one more. -/
theorem evolve_nondestructive_witness :
    lookupTable sampleDB "pop_config" = some popConfigTable ∧
    (∀ c ∈ popConfigTable.cols,
      c.name ∈ ([⟨"id", .INTEGER, none⟩, ⟨"name", .TEXT, none⟩,
                 ⟨"address_vente", .TEXT, none⟩] : List ColumnSpec).map (·.name)) ∧
    ∃ t', lookupTable (evolve noReject ⟨sampleDB, true⟩ "pop_config"
            [⟨"id", .INTEGER, none⟩, ⟨"name", .TEXT, none⟩,
             ⟨"address_vente", .TEXT, none⟩]).1.db "pop_config" = some t' ∧
      t'.cols = popConfigTable.cols
        ++ (missingFrom (popConfigTable.cols.map (·.name))
              [⟨"id", .INTEGER, none⟩, ⟨"name", .TEXT, none⟩,
               ⟨"address_vente", .TEXT, none⟩]).map ColumnSpec.toColumn ∧
      t'.rows = popConfigTable.rows.map
        (fun r => r ++ (missingFrom (popConfigTable.cols.map (·.name))
              [⟨"id", .INTEGER, none⟩, ⟨"name", .TEXT, none⟩,
               ⟨"address_vente", .TEXT, none⟩]).map (·.default)) ∧
      popConfigTable.cols <+: t'.cols ∧
      List.Forall₂ (fun r r' => r <+: r') popConfigTable.rows t'.rows :=
  ⟨rfl, by decide,
    evolve_nondestructive noReject ⟨sampleDB, true⟩ "pop_config"
      [⟨"id", .INTEGER, none⟩, ⟨"name", .TEXT, none⟩, ⟨"address_vente", .TEXT, none⟩]
      popConfigTable rfl rfl (by decide) (fun _ => rfl)⟩

/-- C6: order independence. Running `evolve` with two target schemas that
are permutations of each other, from the same starting catalog, succeeds in
both cases with reports that are permutations of each other (only the order
of `added`/`skipped` may differ) and leaves final column lists that are
permutations — in particular, exactly the same set of columns is present. -/
theorem evolve_order_independent (reject : String → Option String) (conn : Conn)
    (tname : String) (t : Table) (tg₁ tg₂ : List ColumnSpec)
    (hopen : conn.isOpen = true) (hlook : lookupTable conn.db tname = some t)
    (hperm : tg₁.Perm tg₂) (hrej : ∀ n, reject n = none) :
    (∃ r₁ r₂, (evolve reject conn tname tg₁).2 = Except.ok r₁ ∧
        (evolve reject conn tname tg₂).2 = Except.ok r₂ ∧
        r₁.added.Perm r₂.added ∧ r₁.skipped.Perm r₂.skipped) ∧
    (∃ t₁ t₂, lookupTable (evolve reject conn tname tg₁).1.db tname = some t₁ ∧
        lookupTable (evolve reject conn tname tg₂).1.db tname = some t₂ ∧
        t₁.cols.Perm t₂.cols ∧ ∀ col : Column, col ∈ t₁.cols ↔ col ∈ t₂.cols) := by
  rw [evolve_ok_eq reject conn tname tg₁ t hopen hlook (fun c _ _ => hrej c.name),
      evolve_ok_eq reject conn tname tg₂ t hopen hlook (fun c _ _ => hrej c.name)]
  have hmiss : (missingFrom (t.cols.map (·.name)) tg₁).Perm
      (missingFrom (t.cols.map (·.name)) tg₂) := hperm.filter _
  have hpres : (presentIn (t.cols.map (·.name)) tg₁).Perm
      (presentIn (t.cols.map (·.name)) tg₂) := hperm.filter _
  have hcols : ((missingFrom (t.cols.map (·.name)) tg₁).foldl Table.addColumn t).cols.Perm
      ((missingFrom (t.cols.map (·.name)) tg₂).foldl Table.addColumn t).cols := by
    rw [foldl_addColumn_cols, foldl_addColumn_cols]
    exact List.Perm.append_left t.cols (hmiss.map ColumnSpec.toColumn)
  constructor
  · exact ⟨_, _, rfl, rfl, hmiss.map _, hpres.map _⟩
  · refine ⟨(missingFrom (t.cols.map (·.name)) tg₁).foldl Table.addColumn t,
        (missingFrom (t.cols.map (·.name)) tg₂).foldl Table.addColumn t,
        ?_, ?_, hcols, fun col => hcols.mem_iff⟩
    · simp [lookupTable_foldl_addColumn, hlook]
    · simp [lookupTable_foldl_addColumn, hlook]

/-- Witness for C6 at a concrete input: the scenario table with the
script's target schema and its reversal. -/
theorem evolve_order_independent_witness :
    lookupTable sampleDB "pop_config" = some popConfigTable ∧
    migrateTargets.Perm migrateTargets.reverse ∧
    ((∃ r₁ r₂, (evolve noReject ⟨sampleDB, true⟩ "pop_config" migrateTargets).2 = Except.ok r₁ ∧
        (evolve noReject ⟨sampleDB, true⟩ "pop_config" migrateTargets.reverse).2 = Except.ok r₂ ∧
        r₁.added.Perm r₂.added ∧ r₁.skipped.Perm r₂.skipped) ∧
      (∃ t₁ t₂,
        lookupTable (evolve noReject ⟨sampleDB, true⟩ "pop_config"
          migrateTargets).1.db "pop_config" = some t₁ ∧
        lookupTable (evolve noReject ⟨sampleDB, true⟩ "pop_config"
          migrateTargets.reverse).1.db "pop_config" = some t₂ ∧
        t₁.cols.Perm t₂.cols ∧ ∀ col : Column, col ∈ t₁.cols ↔ col ∈ t₂.cols)) :=
  ⟨rfl, by decide,
    evolve_order_independent noReject ⟨sampleDB, true⟩ "pop_config" popConfigTable
      migrateTargets migrateTargets.reverse rfl rfl (by decide) (fun _ => rfl)⟩

/-- C9: the decision to add a column depends only on its name. If the
table already has a column under a target name — even with a declared type
different from the target's — that name is reported skipped, never added,
and the column survives untouched (the old column list is a prefix of the
new one, so its declared type and position are unchanged). -/
theorem evolve_name_only_decision (reject : String → Option String) (conn : Conn)
    (tname : String) (target : List ColumnSpec) (t : Table) (col : Column) (d : ColumnSpec)
    (hopen : conn.isOpen = true) (hlook : lookupTable conn.db tname = some t)
    (hcol : col ∈ t.cols) (hd : d ∈ target) (hname : d.name = col.name)
    (_hty : d.declared_type ≠ col.declared_type)
    (hrej : ∀ n, reject n = none) :
    ∃ r, (evolve reject conn tname target).2 = Except.ok r ∧
      col.name ∈ r.skipped ∧ col.name ∉ r.added ∧
      ∃ t', lookupTable (evolve reject conn tname target).1.db tname = some t' ∧
        col ∈ t'.cols ∧ t.cols <+: t'.cols := by
  rw [evolve_ok_eq reject conn tname target t hopen hlook (fun c _ _ => hrej c.name)]
  have hmem : col.name ∈ t.cols.map (·.name) := List.mem_map_of_mem _ hcol
  refine ⟨_, rfl, ?_, ?_,
    (missingFrom (t.cols.map (·.name)) target).foldl Table.addColumn t, ?_, ?_, ?_⟩
  · refine List.mem_map.mpr ⟨d, ?_, hname⟩
    unfold presentIn
    refine List.mem_filter.mpr ⟨hd, ?_⟩
    simp [hname, hmem]
  · intro hmemadd
    obtain ⟨e, he, hen⟩ := List.mem_map.mp hmemadd
    simp only [missingFrom, List.mem_filter, Bool.not_eq_true', decide_eq_false_iff_not] at he
    exact he.2 (by rw [hen]; exact hmem)
  · simp [lookupTable_foldl_addColumn, hlook]
  · rw [foldl_addColumn_cols]
    exact List.mem_append_left _ hcol
  · rw [foldl_addColumn_cols]
    exact List.prefix_append ..

/-- The scenario table with `address_vente` already present but declared
`INTEGER`, unlike the target's `TEXT`. -/
def popConfigTyped : Table :=
  ⟨"pop_config", [⟨"id", .INTEGER⟩, ⟨"address_vente", .INTEGER⟩], []⟩

/-- Witness for C9 at a concrete input: `address_vente` exists as
`INTEGER`, the target declares it `TEXT`; it is skipped, not altered. -/
theorem evolve_name_only_decision_witness :
    lookupTable [popConfigTyped] "pop_config" = some popConfigTyped ∧
    (⟨"address_vente", .INTEGER⟩ : Column) ∈ popConfigTyped.cols ∧
    (⟨"address_vente", SQLType.TEXT, none⟩ : ColumnSpec) ∈ migrateTargets ∧
    SQLType.TEXT ≠ SQLType.INTEGER ∧
    ∃ r, (evolve noReject ⟨[popConfigTyped], true⟩ "pop_config" migrateTargets).2
        = Except.ok r ∧
      "address_vente" ∈ r.skipped ∧ "address_vente" ∉ r.added ∧
      ∃ t', lookupTable (evolve noReject ⟨[popConfigTyped], true⟩ "pop_config"
            migrateTargets).1.db "pop_config" = some t' ∧
        (⟨"address_vente", .INTEGER⟩ : Column) ∈ t'.cols ∧
        popConfigTyped.cols <+: t'.cols :=
  ⟨rfl, by decide, by decide, by decide,
    evolve_name_only_decision noReject ⟨[popConfigTyped], true⟩ "pop_config" migrateTargets
      popConfigTyped ⟨"address_vente", .INTEGER⟩ ⟨"address_vente", .TEXT, none⟩
      rfl rfl (by decide) (by decide) rfl (by decide) (fun _ => rfl)⟩

/-- When the database rejects the addition of column `c` after accepting
the additions of `pre` (all absent), the loop stops at `c`: the catalog has
exactly `pre` applied, and the error carries the failing column's name, the
underlying cause, and the partial `added` list. -/
lemma evolveGo_fails (reject : String → Option String) (tname : String) (existing : List String)
    (pre : List ColumnSpec) (c : ColumnSpec) (post : List ColumnSpec) (cause : String) :
    ∀ (db : DB) (added skipped : List String),
      (∀ p ∈ pre, p.name ∉ existing ∧ reject p.name = none) →
      c.name ∉ existing → reject c.name = some cause →
      evolveGo reject tname existing (pre ++ c :: post) db added skipped
        = (pre.foldl (fun d p => DB.addColumn d tname p) db,
           .error (.ColumnAdditionFailed c.name cause (added ++ pre.map (·.name)))) := by
  induction pre with
  | nil =>
    intro db added skipped _ hc hr
    simp [evolveGo, hc, hr]
  | cons p rest ih =>
    intro db added skipped hpre hc hr
    obtain ⟨hp1, hp2⟩ := hpre p (List.mem_cons_self ..)
    rw [show evolveGo reject tname existing ((p :: rest) ++ c :: post) db added skipped
          = evolveGo reject tname existing (rest ++ c :: post) (db.addColumn tname p)
              (added ++ [p.name]) skipped by
        simp [evolveGo, hp1, hp2]]
    rw [ih _ _ _ (fun q hq => hpre q (List.mem_cons_of_mem _ hq)) hc hr]
    simp

/-- C3: partial-failure containment. If the database rejects the addition
of column `c` (the Nth statement) after the columns of `pre` (statements
1..N−1, all absent from the table) were added, `evolve` surfaces
`ColumnAdditionFailed` naming exactly `c`, the underlying database cause,
and the partial `added` list `pre.names` — and the catalog it returns still
holds every column added before the failure. -/
theorem evolve_partial_failure (reject : String → Option String) (conn : Conn) (tname : String)
    (t : Table) (pre : List ColumnSpec) (c : ColumnSpec) (post : List ColumnSpec) (cause : String)
    (hopen : conn.isOpen = true) (hlook : lookupTable conn.db tname = some t)
    (hfresh : ∀ p ∈ pre ++ [c], p.name ∉ t.cols.map (·.name))
    (hpre : ∀ p ∈ pre, reject p.name = none)
    (hrej : reject c.name = some cause) :
    (evolve reject conn tname (pre ++ c :: post)).2
        = .error (.ColumnAdditionFailed c.name cause (pre.map (·.name))) ∧
    ∃ t', lookupTable (evolve reject conn tname (pre ++ c :: post)).1.db tname = some t' ∧
      t'.cols = t.cols ++ pre.map ColumnSpec.toColumn := by
  have hgo := evolveGo_fails reject tname (t.cols.map (·.name)) pre c post cause conn.db [] []
      (fun p hp => ⟨hfresh p (List.mem_append_left _ hp), hpre p hp⟩)
      (hfresh c (List.mem_append_right _ (by simp))) hrej
  have hev : evolve reject conn tname (pre ++ c :: post)
      = (⟨pre.foldl (fun d p => DB.addColumn d tname p) conn.db, conn.isOpen⟩,
         .error (.ColumnAdditionFailed c.name cause (pre.map (·.name)))) := by
    simp [evolve, hopen, hlook, hgo]
  rw [hev]
  exact ⟨rfl, pre.foldl Table.addColumn t,
    by simp [lookupTable_foldl_addColumn, hlook], foldl_addColumn_cols ..⟩

/-- A database that rejects exactly the `ADD COLUMN site_livraison`
statement, with a disk I/O error as the underlying cause. -/
def rejectSite : String → Option String :=
  fun n => if n = "site_livraison" then some "disk I/O error" else none

/-- Witness for C3 at a concrete input: on the scenario table the second
of the two `ADD COLUMN` statements is rejected; `address_vente` was added
and remains, and the error names `site_livraison`, the cause, and the
partial added list. -/
theorem evolve_partial_failure_witness :
    lookupTable sampleDB "pop_config" = some popConfigTable ∧
    rejectSite "site_livraison" = some "disk I/O error" ∧
    ((evolve rejectSite ⟨sampleDB, true⟩ "pop_config"
        ([⟨"address_vente", .TEXT, none⟩] ++ ⟨"site_livraison", .TEXT, none⟩ :: [])).2
      = .error (.ColumnAdditionFailed "site_livraison" "disk I/O error" ["address_vente"]) ∧
    ∃ t', lookupTable (evolve rejectSite ⟨sampleDB, true⟩ "pop_config"
        ([⟨"address_vente", .TEXT, none⟩] ++ ⟨"site_livraison", .TEXT, none⟩ :: [])).1.db
          "pop_config" = some t' ∧
      t'.cols = popConfigTable.cols ++ [⟨"address_vente", .TEXT⟩]) :=
  ⟨rfl, rfl,
    evolve_partial_failure rejectSite ⟨sampleDB, true⟩ "pop_config" popConfigTable
      [⟨"address_vente", .TEXT, none⟩] ⟨"site_livraison", .TEXT, none⟩ [] "disk I/O error"
      rfl rfl (by decide) (by decide) rfl⟩

/-- The per-column loop either succeeds or stops at a
`ColumnAdditionFailed` naming a target column the database actually
rejected; no other outcome exists. -/
lemma evolveGo_cases (reject : String → Option String) (tname : String) (existing : List String)
    (pending : List ColumnSpec) :
    ∀ (db : DB) (added skipped : List String),
      (∃ r, (evolveGo reject tname existing pending db added skipped).2 = .ok r)
      ∨ (∃ c cause p, (evolveGo reject tname existing pending db added skipped).2
            = .error (.ColumnAdditionFailed c cause p)
          ∧ reject c = some cause ∧ c ∈ pending.map (·.name)) := by
  induction pending with
  | nil => intro db added skipped; exact Or.inl ⟨⟨added, skipped⟩, rfl⟩
  | cons c rest ih =>
    intro db added skipped
    by_cases hc : c.name ∈ existing
    · rw [show evolveGo reject tname existing (c :: rest) db added skipped
            = evolveGo reject tname existing rest db added (skipped ++ [c.name]) by
          simp [evolveGo, hc]]
      rcases ih db added (skipped ++ [c.name]) with h | ⟨c', cause, p, h1, h2, h3⟩
      · exact Or.inl h
      · exact Or.inr ⟨c', cause, p, h1, h2, List.mem_cons_of_mem _ h3⟩
    · cases hr : reject c.name with
      | some cause =>
        refine Or.inr ⟨c.name, cause, added, ?_, hr, by simp⟩
        simp [evolveGo, hc, hr]
      | none =>
        rw [show evolveGo reject tname existing (c :: rest) db added skipped
              = evolveGo reject tname existing rest (db.addColumn tname c)
                  (added ++ [c.name]) skipped by
            simp [evolveGo, hc, hr]]
        rcases ih (db.addColumn tname c) (added ++ [c.name]) skipped with
          h | ⟨c', cause, p, h1, h2, h3⟩
        · exact Or.inl h
        · exact Or.inr ⟨c', cause, p, h1, h2, List.mem_cons_of_mem _ h3⟩

/-- C7: error propagation. Every call to `evolve` ends in exactly one of
the documented ways — `ConnectionError` when the handle is closed,
`TableNotFound` carrying the table name when the catalog lacks the table,
a successful report, or `ColumnAdditionFailed` carrying a target column
name the database actually rejected together with its underlying cause —
so no failure is silently swallowed, and the pure return value is the
call's only observable behavior. -/
theorem evolve_surfaces_all_errors (reject : String → Option String) (conn : Conn)
    (tname : String) (target : List ColumnSpec) :
    (conn.isOpen = false ∧ evolve reject conn tname target = (conn, .error .ConnectionError))
    ∨ (conn.isOpen = true ∧ lookupTable conn.db tname = none ∧
        evolve reject conn tname target = (conn, .error (.TableNotFound tname)))
    ∨ (∃ r, (evolve reject conn tname target).2 = .ok r)
    ∨ (∃ c cause p, (evolve reject conn tname target).2
          = .error (.ColumnAdditionFailed c cause p)
        ∧ reject c = some cause ∧ c ∈ target.map (·.name)) := by
  cases hopen : conn.isOpen with
  | false => exact Or.inl ⟨rfl, by simp [evolve, hopen]⟩
  | true =>
    cases hlook : lookupTable conn.db tname with
    | none => exact Or.inr (Or.inl ⟨rfl, rfl, by simp [evolve, hopen, hlook]⟩)
    | some t =>
      have h2 : (evolve reject conn tname target).2
          = (evolveGo reject tname (t.cols.map (·.name)) target conn.db [] []).2 := by
        simp [evolve, hopen, hlook]
      rcases evolveGo_cases reject tname (t.cols.map (·.name)) target conn.db [] [] with
        ⟨r, hr⟩ | ⟨c, cause, p, h1, hrej, hmem⟩
      · exact Or.inr (Or.inr (Or.inl ⟨r, by rw [h2]; exact hr⟩))
      · exact Or.inr (Or.inr (Or.inr ⟨c, cause, p, by rw [h2]; exact h1, hrej, hmem⟩))

/-- C8: connection ownership. `evolve` never opens or closes the caller's
connection: the open/closed state of the handle it returns is exactly the
state it was given, so a connection that was open when the caller invoked
`evolve` is still open when the call returns. -/
theorem evolve_connection_ownership (reject : String → Option String) (conn : Conn)
    (tname : String) (target : List ColumnSpec) :
    (evolve reject conn tname target).1.isOpen = conn.isOpen := by
  cases hopen : conn.isOpen with
  | false => simp [evolve, hopen]
  | true =>
    cases hlook : lookupTable conn.db tname with
    | none => simp [evolve, hopen, hlook]
    | some t => simp [evolve, hopen, hlook]

/-- C2: reference scenario. On `pop_config` with columns `{id, name}` and
target `[address_vente TEXT, site_livraison TEXT]`, the first `evolve` call
adds exactly `address_vente` then `site_livraison` in declared order
(`added = [address_vente, site_livraison]`, `skipped = []`), leaving the
columns `[id, name, address_vente, site_livraison]`; the second call adds
nothing (`added = []`, `skipped = [address_vente, site_livraison]`) and
leaves the catalog unchanged. The source script run on the same catalog
performs exactly the same two additions in the same order. -/
theorem evolve_scenario_pop_config :
    evolve noReject ⟨sampleDB, true⟩ "pop_config" migrateTargets
        = (⟨evolvedDB, true⟩, .ok ⟨["address_vente", "site_livraison"], []⟩) ∧
    evolve noReject ⟨evolvedDB, true⟩ "pop_config" migrateTargets
        = (⟨evolvedDB, true⟩, .ok ⟨[], ["address_vente", "site_livraison"]⟩) ∧
    migrate_settings noReject true sampleDB
        = ⟨evolvedDB,
           ["Adding column address_vente...", "Adding column site_livraison...",
            "Migration completed successfully."], true⟩ ∧
    migrate_settings noReject true evolvedDB
        = ⟨evolvedDB,
           ["Column address_vente already exists.", "Column site_livraison already exists.",
            "Migration completed successfully."], true⟩ := by
  refine ⟨?_, ?_, ?_, ?_⟩ <;> rfl

/-- C4: `TableNotFound` atomicity. When `table_name` is not in the catalog,
`evolve` fails with `TableNotFound table_name`, the connection (hence the
table catalog) is returned unchanged, and no schema change is attempted. -/
theorem evolve_table_not_found (reject : String → Option String) (conn : Conn)
    (tname : String) (target : List ColumnSpec)
    (hopen : conn.isOpen = true) (hlook : lookupTable conn.db tname = none) :
    evolve reject conn tname target = (conn, .error (.TableNotFound tname)) := by
  simp [evolve, hopen, hlook]

/-- Witness for C4 at a concrete input: an open connection to an empty
catalog and the script's table name. -/
theorem evolve_table_not_found_witness :
    evolve noReject ⟨[], true⟩ "pop_config" migrateTargets
      = (⟨[], true⟩, .error (.TableNotFound "pop_config")) :=
  evolve_table_not_found noReject ⟨[], true⟩ "pop_config" migrateTargets rfl rfl

/-- C10: when the database file does not exist at the configured path, the
script opens no connection and performs no database operation: the catalog
is returned untouched and the only output is the not-found message. -/
theorem migrate_settings_no_file (reject : String → Option String) (dbExists : Bool)
    (db : DB) (h : dbExists = false) :
    migrate_settings reject dbExists db
      = ⟨db, ["Database not found at " ++ db_path], false⟩ := by
  simp [migrate_settings, h]

/-- Witness for C10 at a concrete input: the scenario catalog with the
file absent. -/
theorem migrate_settings_no_file_witness :
    migrate_settings noReject false sampleDB
      = ⟨sampleDB, ["Database not found at " ++ db_path], false⟩ :=
  migrate_settings_no_file noReject false sampleDB rfl
